import Mathlib

/-!
Shallow embedding of the 8-bit computer simulation (`main.py`): RAM, LogicGates,
CPU.execute / CPU.run, together with the string-level instruction parsing the
interpreter performs.  Python exceptions are modelled by `PyErr`; a computation
step returns the (possibly mutated) machine state, the lines printed, and either
the Python return value (`True` / `False` / `None`, modelled as `Option Bool`)
or the raised error.
-/

set_option maxRecDepth 100000

/-- Python exceptions raised by the simulator: `ValueError` (raised explicitly
and by `int(...)` / tuple unpacking) and `IndexError` (out-of-range list or
string indexing), plus `RecursionError` standing for Python's recursion limit. -/
inductive PyErr where
  | valueError (msg : String)
  | indexError (msg : String)
  | recursionError
deriving Repr, DecidableEq

/-- Whitespace test used by Python `strip` and `split`. -/
def wsp (c : Char) : Bool := c.isWhitespace

/-- Python `s.strip()`: drop whitespace from both ends. -/
def pyStrip (s : String) : String :=
  String.mk (((s.data.dropWhile wsp).reverse.dropWhile wsp).reverse)

/-- Splitting on whitespace runs: accumulate the current token (reversed) and
emit it at each whitespace run or at the end; no empty tokens are produced. -/
def splitWsAux : List Char → List Char → List (List Char)
  | [], acc => if acc.isEmpty then [] else [acc.reverse]
  | c :: rest, acc =>
    if wsp c then
      if acc.isEmpty then splitWsAux rest []
      else acc.reverse :: splitWsAux rest []
    else splitWsAux rest (c :: acc)

/-- Python `s.split()` with no argument: split on whitespace runs, dropping
empty pieces. -/
def pySplitWs (s : String) : List String := (splitWsAux s.data []).map String.mk

/-- Splitting on a (nonempty) separator substring, scanning left to right and
skipping each non-overlapping occurrence; the fuel bounds the scan length. -/
def splitOnAux (sep : List Char) : Nat → List Char → List Char → List (List Char)
  | 0, acc, _ => [acc.reverse]
  | _ + 1, acc, [] => [acc.reverse]
  | fuel + 1, acc, c :: rest =>
    if sep.isPrefixOf (c :: rest) then
      acc.reverse :: splitOnAux sep fuel [] (List.drop (sep.length - 1) rest)
    else splitOnAux sep fuel (c :: acc) rest

/-- Python `s.split(sep)` for a nonempty separator string. -/
def splitOnStr (sep s : String) : List String :=
  (splitOnAux sep.data (s.data.length + 1) [] s.data).map String.mk

/-- Python `s.startswith(pre)`. -/
def pyStartsWith (s pre : String) : Bool := pre.data.isPrefixOf s.data

/-- Python `s.split(";")[0]`: the text before the first semicolon. -/
def beforeSemi (s : String) : String := (splitOnStr ";" s).headD s

/-- `instruction.split(";")[0].strip().split()` — the token list the
interpreter dispatches on. -/
def lineParts (s : String) : List String := pySplitWs (pyStrip (beforeSemi s))

/-- Python slice `s[1:-1]` (drop the first and the last character). -/
def slice1m1 (s : String) : String := String.mk ((s.data.drop 1).dropLast)

/-- Python `s[i]` on a string: the i-th character, `IndexError` if out of range. -/
def charAt (s : String) (i : Nat) : Except PyErr Char :=
  if h : i < s.data.length then .ok (s.data.get ⟨i, h⟩)
  else .error (.indexError "string index out of range")

/-- Value of one digit character, as Python `int` accepts it (0-9, a-z, A-Z). -/
def digitVal (c : Char) : Option Nat :=
  if c.isDigit then some (c.toNat - 48)
  else if 97 ≤ c.toNat ∧ c.toNat ≤ 122 then some (c.toNat - 87)
  else if 65 ≤ c.toNat ∧ c.toNat ≤ 90 then some (c.toNat - 55)
  else none

/-- Accumulate a digit string in the given base; `none` if some character is
not a digit of the base. -/
def digitsToNat (base : Nat) (cs : List Char) : Option Nat :=
  cs.foldl
    (fun acc c =>
      match acc, digitVal c with
      | some a, some d => if d < base then some (a * base + d) else none
      | _, _ => none)
    (some 0)

/-- Python `int(s, base)`: optional surrounding whitespace, optional sign,
then a nonempty digit string in the base; `ValueError` otherwise. -/
def pyInt (s : String) (base : Nat) : Except PyErr Int :=
  let t := pyStrip s
  let signDigits : Int × List Char :=
    match t.data with
    | '-' :: rest => (-1, rest)
    | '+' :: rest => (1, rest)
    | cs => (1, cs)
  if signDigits.2.isEmpty then
    .error (.valueError ("invalid literal for int() with base " ++ toString base ++ ": " ++ s))
  else
    match digitsToNat base signDigits.2 with
    | some n => .ok (signDigits.1 * n)
    | none =>
      .error (.valueError ("invalid literal for int() with base " ++ toString base ++ ": " ++ s))

/-- Binary digit characters of a natural number, most-significant first
(empty for 0); the fuel bounds the number of halvings. -/
def binDigitsAux : Nat → Nat → List Char
  | 0, _ => []
  | _ + 1, 0 => []
  | fuel + 1, n => binDigitsAux fuel (n / 2) ++ [if n % 2 == 1 then '1' else '0']

/-- Binary digit characters of a positive natural number (empty for 0). -/
def binDigits (n : Nat) : List Char := binDigitsAux n n

/-- Binary rendering of a natural number, `"0"` for zero (Python `format(n, 'b')`). -/
def natToBin (n : Nat) : String :=
  if n == 0 then "0" else String.mk (binDigits n)

/-- Python `format(v, '08b')`: binary rendering zero-padded to width 8
(the pad goes after the sign for negative values; wider values are not
truncated). -/
def pyFormat08b (v : Int) : String :=
  if v < 0 then
    let d := natToBin v.natAbs
    "-" ++ String.mk (List.replicate (7 - d.length) '0') ++ d
  else
    let d := natToBin v.toNat
    String.mk (List.replicate (8 - d.length) '0') ++ d

/-- The RAM: a fixed size and the cell list (`[0] * size` at construction). -/
structure RAM where
  size : Nat
  memory : List Nat
deriving Repr, DecidableEq

/-- `RAM(size)` from the source: `size` zero cells. -/
def RAM.init (size : Nat) : RAM := ⟨size, List.replicate size 0⟩

/-- `RAM.read`: bounds-checked cell read. -/
def RAM.read (r : RAM) (address : Int) : Except PyErr Nat :=
  if address < 0 ∨ (r.size : Int) ≤ address then
    .error (.valueError ("Address " ++ toString address ++ " is out of bounds."))
  else
    .ok (r.memory.getD address.toNat 0)

/-- `RAM.write`: bounds- and byte-checked cell overwrite. -/
def RAM.write (r : RAM) (address : Int) (value : Int) : Except PyErr RAM :=
  if address < 0 ∨ (r.size : Int) ≤ address then
    .error (.valueError ("Address " ++ toString address ++ " is out of bounds."))
  else if ¬ (0 ≤ value ∧ value < 256) then
    .error (.valueError ("Invalid value: " ++ toString value ++ ". Must be an 8-bit integer."))
  else
    .ok { r with memory := r.memory.set address.toNat value.toNat }

namespace LogicGates

/-- `a & b`. -/
def AND (a b : Nat) : Nat := a &&& b

/-- `a | b`. -/
def OR (a b : Nat) : Nat := a ||| b

/-- `~a & 0xFF`: on a two's-complement integer this is `(-a - 1) mod 256`,
which for a natural number equals `255 - a % 256`. -/
def NOT (a : Nat) : Nat := 255 - a % 256

/-- `NOT(AND(a, b))` — composed, exactly as in the source. -/
def NAND (a b : Nat) : Nat := NOT (AND a b)

/-- `NOT(OR(a, b))` — composed, exactly as in the source. -/
def NOR (a b : Nat) : Nat := NOT (OR a b)

/-- `a ^ b`. -/
def XOR (a b : Nat) : Nat := a ^^^ b

end LogicGates

/-- The CPU state: the owned RAM, the 8-slot register file, the verbosity flag. -/
structure CPUState where
  ram : RAM
  registers : List Nat
  verbose : Bool
deriving Repr, DecidableEq

/-- `CPU.__init__`: zeroed registers. -/
def CPUState.init (ram : RAM) (verbose : Bool) : CPUState :=
  ⟨ram, List.replicate 8 0, verbose⟩

/-- `int(tok[1])` — the register index taken from position 1 of a token
(`R0`, `R1`, …); no range check happens here. -/
def regAt (tok : String) : Except PyErr Nat :=
  match charAt tok 1 with
  | .error e => .error e
  | .ok c =>
    match pyInt (String.singleton c) 10 with
    | .error e => .error e
    | .ok v => .ok v.toNat

/-- `self.registers[i]` — Python list read, `IndexError` when `i ≥ len`. -/
def getReg (st : CPUState) (i : Nat) : Except PyErr Nat :=
  if h : i < st.registers.length then .ok (st.registers.get ⟨i, h⟩)
  else .error (.indexError "list index out of range")

/-- `self.registers[i] = v` — Python list assignment, `IndexError` when `i ≥ len`. -/
def setReg (st : CPUState) (i : Nat) (v : Nat) : Except PyErr CPUState :=
  if i < st.registers.length then .ok { st with registers := st.registers.set i v }
  else .error (.indexError "list assignment index out of range")

/-- One interpreter step outcome: final state, printed lines, and the Python
return value (`some true` / `some false` / `none` for `None`) or raised error. -/
abbrev ER := CPUState × List String × Except PyErr (Option Bool)

/-- Python truthiness of the `execute` return value as tested by `run`. -/
def truthy : Option Bool → Bool
  | none => false
  | some b => b

namespace CPU

/-- The `LOAD Rd [addr]` branch of `CPU.execute`. -/
def execLOAD (st : CPUState) (instruction : String) (parts : List String) : ER :=
  match parts with
  | [_, reg, address] =>
    match regAt reg with
    | .error e => (st, [], .error e)
    | .ok i =>
      match pyInt (slice1m1 address) 16 with
      | .error e => (st, [], .error e)
      | .ok a =>
        match st.ram.read a with
        | .error e => (st, [], .error e)
        | .ok v =>
          match setReg st i v with
          | .error e => (st, [], .error e)
          | .ok st2 =>
            (st2,
             if st.verbose then
               ["LOAD: Loaded R" ++ toString i ++ " = " ++ pyFormat08b (v : Int)]
             else [],
             .ok (some true))
  | _ => (st, [], .error (.valueError ("LOAD instruction must have 3 parts: " ++ instruction)))

/-- The `VER _ 0|1` branch of `CPU.execute`. -/
def execVER (st : CPUState) (instruction : String) (parts : List String) : ER :=
  match parts with
  | [_, _, vtok] =>
    match pyInt vtok 10 with
    | .error e => (st, [], .error e)
    | .ok v =>
      if v == 1 ∨ v == 0 then
        let st2 : CPUState := { st with verbose := v == 1 }
        (st2,
         if st2.verbose then ["VER: VER = " ++ toString v ++ " -> SET"] else [],
         .ok (some true))
      else (st, [], .error (.valueError ("VER instruction must contain 1 or 0: " ++ instruction)))
  | _ => (st, [], .error (.valueError ("VER instruction must have 2 parts: " ++ instruction)))

/-- The `ADD Ra Rb Rd` branch of `CPU.execute` (8-bit wraparound). -/
def execADD (st : CPUState) (instruction : String) (parts : List String) : ER :=
  match parts with
  | [_, r1, r2, r3] =>
    match regAt r1 with
    | .error e => (st, [], .error e)
    | .ok i1 =>
      match getReg st i1 with
      | .error e => (st, [], .error e)
      | .ok v1 =>
        match regAt r2 with
        | .error e => (st, [], .error e)
        | .ok i2 =>
          match getReg st i2 with
          | .error e => (st, [], .error e)
          | .ok v2 =>
            match regAt r3 with
            | .error e => (st, [], .error e)
            | .ok i3 =>
              match setReg st i3 ((v1 + v2) % 256) with
              | .error e => (st, [], .error e)
              | .ok st2 =>
                (st2,
                 if st.verbose then
                   ["ADD: R" ++ toString i1 ++ " + R" ++ toString i2 ++ " = R" ++
                    toString i3 ++ " -> " ++ pyFormat08b (((v1 + v2) % 256 : Nat) : Int)]
                 else [],
                 .ok (some true))
  | _ => (st, [], .error (.valueError ("ADD instruction must have 4 parts: " ++ instruction)))

/-- The `STORE Rs [addr]` branch of `CPU.execute`. -/
def execSTORE (st : CPUState) (instruction : String) (parts : List String) : ER :=
  match parts with
  | [_, reg, address] =>
    match regAt reg with
    | .error e => (st, [], .error e)
    | .ok i =>
      match pyInt (slice1m1 address) 16 with
      | .error e => (st, [], .error e)
      | .ok a =>
        match getReg st i with
        | .error e => (st, [], .error e)
        | .ok v =>
          match st.ram.write a (v : Int) with
          | .error e => (st, [], .error e)
          | .ok ram2 =>
            ({ st with ram := ram2 },
             if st.verbose then
               ["STORE: R" ++ toString i ++ " stored at " ++ address ++ " -> " ++
                pyFormat08b (v : Int)]
             else [],
             .ok (some true))
  | _ => (st, [], .error (.valueError ("STORE instruction must have 3 parts: " ++ instruction)))

/-- The `INIT [addr] = value` branch of `CPU.execute`. -/
def execINIT (st : CPUState) (instruction : String) (parts : List String) : ER :=
  match parts with
  | [_, address, eqTok, value] =>
    if eqTok == "=" then
      match pyInt (slice1m1 address) 16 with
      | .error e => (st, [], .error e)
      | .ok a =>
        match pyInt (pyStrip value) 2 with
        | .error e => (st, [], .error e)
        | .ok w =>
          match st.ram.write a w with
          | .error e => (st, [], .error e)
          | .ok ram2 =>
            ({ st with ram := ram2 },
             if st.verbose then
               ["INIT: Set memory " ++ address ++ " to " ++ pyStrip value ++ " (binary)"]
             else [],
             .ok (some true))
    else
      (st, [],
       .error (.valueError
         ("INIT instruction must be in format INIT [address] = [value]: " ++ instruction)))
  | _ =>
    (st, [],
     .error (.valueError
       ("INIT instruction must be in format INIT [address] = [value]: " ++ instruction)))

/-- The `CLEAR Rd` / `CLEAR [addr]` branch of `CPU.execute`.  The register
form ends in a bare `return`, i.e. it returns Python `None`. -/
def execCLEAR (st : CPUState) (instruction : String) (parts : List String) : ER :=
  match parts with
  | [_, address] =>
    if pyStartsWith address "R" then
      match regAt address with
      | .error e => (st, [], .error e)
      | .ok i =>
        match setReg st i 0 with
        | .error e => (st, [], .error e)
        | .ok st2 => (st2, [], .ok none)
    else
      match pyInt (slice1m1 address) 16 with
      | .error e => (st, [], .error e)
      | .ok a =>
        match st.ram.write a 0 with
        | .error e => (st, [], .error e)
        | .ok ram2 =>
          ({ st with ram := ram2 },
           if st.verbose then ["CLEAR: Cleared memory at " ++ address] else [],
           .ok (some true))
  | _ => (st, [], .error (.valueError ("CLEAR instruction must have 2 parts: " ++ instruction)))

/-- The `OUT Rd` / `OUT value` branch of `CPU.execute`; its print is
unconditional. -/
def execOUT (st : CPUState) (instruction : String) (parts : List String) : ER :=
  match parts with
  | [_, value] =>
    if pyStartsWith value "R" then
      match regAt value with
      | .error e => (st, [], .error e)
      | .ok i =>
        match getReg st i with
        | .error e => (st, [], .error e)
        | .ok v =>
          (st, ["OUT: REG R" ++ toString i ++ "=" ++ pyFormat08b (v : Int)], .ok (some true))
    else
      match pyInt value 2 with
      | .error e => (st, [], .error e)
      | .ok w => (st, ["OUT: Value " ++ pyFormat08b w], .ok (some true))
  | _ => (st, [], .error (.valueError ("OUT instruction must have 2 parts: " ++ instruction)))

/-- The shared shape of the `AND` / `OR` / `NAND` / `NOR` / `XOR` branches of
`CPU.execute`, parameterised by the opcode name and the gate function. -/
def execGate3 (name : String) (gate : Nat → Nat → Nat)
    (st : CPUState) (instruction : String) (parts : List String) : ER :=
  match parts with
  | [_, r1, r2, r3] =>
    match regAt r1 with
    | .error e => (st, [], .error e)
    | .ok i1 =>
      match getReg st i1 with
      | .error e => (st, [], .error e)
      | .ok v1 =>
        match regAt r2 with
        | .error e => (st, [], .error e)
        | .ok i2 =>
          match getReg st i2 with
          | .error e => (st, [], .error e)
          | .ok v2 =>
            match regAt r3 with
            | .error e => (st, [], .error e)
            | .ok i3 =>
              match setReg st i3 (gate v1 v2) with
              | .error e => (st, [], .error e)
              | .ok st2 =>
                (st2,
                 if st.verbose then
                   [name ++ ": R" ++ toString i1 ++ " " ++ name ++ " R" ++ toString i2 ++
                    " = R" ++ toString i3 ++ " -> " ++ pyFormat08b ((gate v1 v2 : Nat) : Int)]
                 else [],
                 .ok (some true))
  | _ => (st, [], .error (.valueError (name ++ " instruction must have 4 parts: " ++ instruction)))

/-- The `NOT Rs Rd` branch of `CPU.execute`. -/
def execNOT (st : CPUState) (instruction : String) (parts : List String) : ER :=
  match parts with
  | [_, reg, targetReg] =>
    match regAt reg with
    | .error e => (st, [], .error e)
    | .ok iS =>
      match getReg st iS with
      | .error e => (st, [], .error e)
      | .ok v =>
        match regAt targetReg with
        | .error e => (st, [], .error e)
        | .ok iT =>
          match setReg st iT (LogicGates.NOT v) with
          | .error e => (st, [], .error e)
          | .ok st2 =>
            (st2,
             if st.verbose then
               ["NOT: R" ++ toString iS ++ " -> R" ++ toString iT ++ " -> " ++
                pyFormat08b ((LogicGates.NOT v : Nat) : Int)]
             else [],
             .ok (some true))
  | _ => (st, [], .error (.valueError ("NOT instruction must have 3 parts: " ++ instruction)))

end CPU

namespace CPU

/-- The operator tuple of the IF-condition check in the source. -/
def condOps : List String := ["==", "!=", ">", "<", ">=", "<="]

/-- The `if/elif` operator chain that evaluates an IF condition
(`condition_met` stays `False` for an operator outside the tuple, which the
earlier membership check makes unreachable). -/
def evalCond (operator : String) (a b : Int) : Bool :=
  if operator == "==" then a == b
  else if operator == "!=" then !(a == b)
  else if operator == ">" then decide (b < a)
  else if operator == "<" then decide (a < b)
  else if operator == ">=" then decide (b ≤ a)
  else if operator == "<=" then decide (a ≤ b)
  else false

/-- Resolution of the right-hand operand of an IF condition: register
reference, bracketed memory address, or binary literal. -/
def resolveOperand (st : CPUState) (value : String) : Except PyErr Int :=
  if pyStartsWith value "R" then
    match regAt value with
    | .error e => .error e
    | .ok i =>
      match getReg st i with
      | .error e => .error e
      | .ok v => .ok (v : Int)
  else if pyStartsWith value "[" then
    match pyInt (slice1m1 value) 16 with
    | .error e => .error e
    | .ok a =>
      match st.ram.read a with
      | .error e => .error e
      | .ok v => .ok (v : Int)
  else pyInt value 2

/-- `return True` swallowing of a clause's own return value: the IF branch
discards what `self.execute(clause)` returns and falls through to the final
`return True` of `execute`; an error keeps propagating. -/
def swallowRet : Except PyErr (Option Bool) → Except PyErr (Option Bool)
  | .error e => .error e
  | .ok _ => .ok (some true)

/-- Verbose trace printed when an IF condition is met. -/
def ifMetTrace (reg1 operator : String) (w : Int) (thenClause : String) : String :=
  "IF condition met: " ++ reg1 ++ " " ++ operator ++ " " ++ pyFormat08b w ++
  ", executing " ++ thenClause

/-- Verbose trace printed when an IF condition fails and the ELSE clause runs. -/
def ifElseTrace (elseClause : String) : String :=
  "IF condition not met, executing ELSE clause: " ++ elseClause

/-- Verbose trace printed when an IF condition fails and there is no ELSE clause. -/
def ifSkipTrace (reg1 operator : String) (w : Int) : String :=
  "IF condition not met: " ++ reg1 ++ " " ++ operator ++ " " ++ pyFormat08b w ++
  ", skipping THEN clause"

/-- The part of the IF branch after splitting off the condition, the THEN
clause and the optional ELSE clause; `recur` is the recursive `self.execute`. -/
def ifDispatch (recur : CPUState → String → ER) (st : CPUState)
    (condition thenClause : String) (elseClause : Option String) : ER :=
  match pySplitWs condition with
  | [_, reg1, operator, value] =>
    if condOps.contains operator then
      match regAt reg1 with
      | .error e => (st, [], .error e)
      | .ok i =>
        match getReg st i with
        | .error e => (st, [], .error e)
        | .ok a =>
          match resolveOperand st value with
          | .error e => (st, [], .error e)
          | .ok w =>
            if evalCond operator (a : Int) w then
              let trace := if st.verbose then [ifMetTrace reg1 operator w thenClause] else []
              let res := recur st thenClause
              (res.1, trace ++ res.2.1, swallowRet res.2.2)
            else
              match elseClause with
              | some e =>
                if e ≠ "" then
                  let trace := if st.verbose then [ifElseTrace e] else []
                  let res := recur st e
                  (res.1, trace ++ res.2.1, swallowRet res.2.2)
                else
                  (st, if st.verbose then [ifSkipTrace reg1 operator w] else [],
                   .ok (some true))
              | none =>
                (st, if st.verbose then [ifSkipTrace reg1 operator w] else [],
                 .ok (some true))
    else (st, [], .error (.valueError ("Invalid IF condition: " ++ pyStrip condition)))
  | _ => (st, [], .error (.valueError ("Invalid IF condition: " ++ pyStrip condition)))

/-- The `IF … THEN … [ELSE …]` branch of `CPU.execute`.  Note: the splits run
on the raw instruction line and unpack into exactly two pieces, so a second
`THEN` (or `ELSE`) token in the line raises a `ValueError` from tuple
unpacking. -/
def execIF (recur : CPUState → String → ER) (st : CPUState) (instruction : String) : ER :=
  match splitOnStr "THEN" instruction with
  | [_] => (st, [], .error (.valueError ("IF instruction must contain THEN: " ++ instruction)))
  | [condRaw, thenRaw] =>
    let condition := pyStrip condRaw
    let thenStripped := pyStrip thenRaw
    match splitOnStr "ELSE" thenStripped with
    | [_] => ifDispatch recur st condition thenStripped none
    | [t, e] => ifDispatch recur st condition (pyStrip t) (some (pyStrip e))
    | _ => (st, [], .error (.valueError "too many values to unpack (expected 2)"))
  | _ => (st, [], .error (.valueError "too many values to unpack (expected 2)"))

/-- One unfolding of `CPU.execute`: comment stripping, tokenisation, and the
`if/elif` opcode dispatch, with `recur` standing for the recursive
`self.execute` used by the IF branch. -/
def dispatch (recur : CPUState → String → ER) (st : CPUState) (instruction : String) : ER :=
  match lineParts instruction with
  | [] => (st, [], .ok (some true))
  | opcode :: rest =>
    let parts := opcode :: rest
    if opcode == "LOAD" then execLOAD st instruction parts
    else if opcode == "VER" then execVER st instruction parts
    else if opcode == "ADD" then execADD st instruction parts
    else if opcode == "STORE" then execSTORE st instruction parts
    else if opcode == "INIT" then execINIT st instruction parts
    else if opcode == "CLEAR" then execCLEAR st instruction parts
    else if opcode == "OUT" then execOUT st instruction parts
    else if opcode == "HALT" then (st, [], .ok (some false))
    else if opcode == "AND" then execGate3 "AND" LogicGates.AND st instruction parts
    else if opcode == "OR" then execGate3 "OR" LogicGates.OR st instruction parts
    else if opcode == "NOT" then execNOT st instruction parts
    else if opcode == "NAND" then execGate3 "NAND" LogicGates.NAND st instruction parts
    else if opcode == "NOR" then execGate3 "NOR" LogicGates.NOR st instruction parts
    else if opcode == "XOR" then execGate3 "XOR" LogicGates.XOR st instruction parts
    else if opcode == "IF" then execIF recur st instruction
    else (st, [], .error (.valueError ("Unknown instruction: " ++ instruction)))

/-- `CPU.execute` with an explicit recursion-depth budget (Python's
interpreter enforces such a budget through its recursion limit; only the IF
branch recurses). -/
def executeFuel : Nat → CPUState → String → ER
  | 0, st, _ => (st, [], .error .recursionError)
  | fuel + 1, st, instruction => dispatch (executeFuel fuel) st instruction

/-- `CPU.execute(instruction)`: Python's default recursion limit is 1000. -/
def execute (st : CPUState) (instruction : String) : ER :=
  executeFuel 1000 st instruction

/-- `CPU.run(program)`: strip each line, skip blanks, execute until an
instruction returns a falsy value or an error propagates.  Returns the final
state, everything printed, and the propagated error when one is raised. -/
def run (st : CPUState) : List String → CPUState × List String × Option PyErr
  | [] => (st, [], none)
  | ins0 :: rest =>
    let ins := pyStrip ins0
    if ins == "" then run st rest
    else
      let res := execute st ins
      match res.2.2 with
      | .error e => (res.1, res.2.1, some e)
      | .ok r =>
        if truthy r then
          let next := run res.1 rest
          (next.1, res.2.1 ++ next.2.1, next.2.2)
        else (res.1, res.2.1, none)

end CPU

deriving instance DecidableEq for Except

/-- A sample machine: the boot RAM of `__main__` (256 zeroed cells) with a
register file holding distinguishable byte values. -/
def demoState : CPUState := ⟨RAM.init 256, [7, 3, 9, 0, 1, 250, 6, 2], false⟩

/-- Dispatch reaches the IF branch exactly when the first token is `IF`. -/
theorem dispatch_eq_execIF (recur : CPUState → String → ER) (st : CPUState)
    (line : String) (rest : List String) (h : lineParts line = "IF" :: rest) :
    CPU.dispatch recur st line = CPU.execIF recur st line := by
  unfold CPU.dispatch
  rw [h]
  simp only [beq_iff_eq, String.reduceEq, reduceIte, if_true, if_false]

/-- Dispatch reaches the ADD branch exactly when the first token is `ADD`. -/
theorem dispatch_eq_execADD (recur : CPUState → String → ER) (st : CPUState)
    (line : String) (rest : List String) (h : lineParts line = "ADD" :: rest) :
    CPU.dispatch recur st line = CPU.execADD st line ("ADD" :: rest) := by
  unfold CPU.dispatch
  rw [h]
  simp only [beq_iff_eq, String.reduceEq, reduceIte, if_true, if_false]

/-- Dispatch reaches the OUT branch exactly when the first token is `OUT`. -/
theorem dispatch_eq_execOUT (recur : CPUState → String → ER) (st : CPUState)
    (line : String) (rest : List String) (h : lineParts line = "OUT" :: rest) :
    CPU.dispatch recur st line = CPU.execOUT st line ("OUT" :: rest) := by
  unfold CPU.dispatch
  rw [h]
  simp only [beq_iff_eq, String.reduceEq, reduceIte, if_true, if_false]

/-- Unfolding equation of `executeFuel` at a successor fuel value. -/
theorem executeFuel_succ (n : Nat) (st : CPUState) (s : String) :
    CPU.executeFuel (n + 1) st s = CPU.dispatch (CPU.executeFuel n) st s := rfl

/-- `CPU.execute` is one dispatch with fuel 999 left for the IF recursion. -/
theorem execute_eq_dispatch (st : CPUState) (s : String) :
    CPU.execute st s = CPU.dispatch (CPU.executeFuel 999) st s := rfl

/-- **C1** (code bug in the source): `CLEAR` applied to a register reference
hits the bare `return` in the CLEAR branch, so `execute` returns Python
`None` — a falsy value, not `True` — although the opcode is `CLEAR`, and
`run` therefore stops as if the program had halted: the following `OUT R0`
never executes and prints nothing. -/
theorem clear_register_returns_none_and_stops_run :
    CPU.execute demoState "CLEAR R5" =
      ({ demoState with registers := [7, 3, 9, 0, 1, 0, 6, 2] }, [], .ok none) ∧
    truthy none = false ∧
    lineParts "CLEAR R5" = ["CLEAR", "R5"] ∧
    CPU.run demoState ["CLEAR R5", "OUT R0"] =
      ({ demoState with registers := [7, 3, 9, 0, 1, 0, 6, 2] }, [], none) := by
  exact ⟨by decide, rfl, by decide, by decide⟩

/-- **C2** (counterexample): an IF whose THEN clause is itself a complete IF
is not executed with standalone semantics — the line contains two `THEN`
tokens, so `execute` raises the tuple-unpacking `ValueError` even though the
outer condition (R3 == 0) is true, while the nested IF run standalone
succeeds and clears R2. -/
theorem nested_if_counterexample :
    CPU.execute demoState "IF R3 == 00000000 THEN IF R1 == 00000011 THEN CLEAR R2" =
      (demoState, [], .error (.valueError "too many values to unpack (expected 2)")) ∧
    CPU.execute demoState "IF R1 == 00000011 THEN CLEAR R2" =
      ({ demoState with registers := [7, 3, 0, 0, 1, 250, 6, 2] }, [], .ok (some true)) := by
  exact ⟨by decide, by decide⟩

/-- **C2** (amended): any IF line in which `THEN` occurs more than once —
in particular every IF whose THEN or ELSE clause is itself a complete IF —
raises the tuple-unpacking `ValueError` before evaluating anything; nested
conditionals are not supported. -/
theorem nested_if_raises_unpack_error (st : CPUState) (line : String)
    (rest : List String) (p q u : String) (l : List String)
    (hop : lineParts line = "IF" :: rest)
    (hsplit : splitOnStr "THEN" line = p :: q :: u :: l) :
    CPU.execute st line =
      (st, [], .error (.valueError "too many values to unpack (expected 2)")) := by
  rw [execute_eq_dispatch, dispatch_eq_execIF _ _ _ _ hop]
  unfold CPU.execIF
  rw [hsplit]

/-- Witness for the amended C2 statement: nesting in the ELSE position. -/
theorem nested_if_raises_unpack_error_witness :
    CPU.execute demoState
        "IF R3 == 00000001 THEN CLEAR R1 ELSE IF R0 == 00000001 THEN CLEAR R2" =
      (demoState, [], .error (.valueError "too many values to unpack (expected 2)")) :=
  nested_if_raises_unpack_error demoState
    "IF R3 == 00000001 THEN CLEAR R1 ELSE IF R0 == 00000001 THEN CLEAR R2"
    ["R3", "==", "00000001", "THEN", "CLEAR", "R1", "ELSE", "IF", "R0", "==",
     "00000001", "THEN", "CLEAR", "R2"]
    "IF R3 == 00000001 " " CLEAR R1 ELSE IF R0 == 00000001 " " CLEAR R2" []
    (by decide) (by decide)

/-- **C4** (counterexample): `OUT` of the nine-bit binary immediate
`100000000` (value 256) prints its value rendered as nine characters, not as
an 8-character zero-padded string. -/
theorem out_nine_bit_counterexample :
    CPU.execute demoState "OUT 100000000" =
      (demoState, ["OUT: Value " ++ pyFormat08b 256], .ok (some true)) ∧
    pyFormat08b 256 = "100000000" ∧
    (pyFormat08b 256).length ≠ 8 := by
  exact ⟨by decide, by decide, by decide⟩

/-- **C5**: writing a byte value to a valid address and reading the same
address back returns exactly that value. -/
theorem ram_write_then_read (r : RAM) (a v : Int)
    (hlen : r.memory.length = r.size) (ha0 : 0 ≤ a) (ha : a < (r.size : Int))
    (hv0 : 0 ≤ v) (hv : v ≤ 255) :
    ∃ r2, r.write a v = .ok r2 ∧ r2.read a = .ok v.toNat ∧ (v.toNat : Int) = v := by
  have hc : ¬(a < 0 ∨ (r.size : Int) ≤ a) := by omega
  have hc2 : ¬¬(0 ≤ v ∧ v < 256) := by omega
  refine ⟨{ r with memory := r.memory.set a.toNat v.toNat }, ?_, ?_, by omega⟩
  · simp only [RAM.write, if_neg hc, if_neg hc2]
  · have hlt : a.toNat < r.memory.length := by omega
    simp only [RAM.read, if_neg hc]
    simp [List.getD_eq_getElem?_getD, List.getElem?_set_self', hlt]

/-- Witness for C5 at a concrete RAM, address and value. -/
theorem ram_write_then_read_witness :
    ∃ r2, (RAM.init 4).write 2 250 = .ok r2 ∧ r2.read 2 = .ok (250 : Int).toNat ∧
      (((250 : Int).toNat : Int)) = 250 :=
  ram_write_then_read (RAM.init 4) 2 250 (by decide) (by decide) (by decide)
    (by decide) (by decide)

/-- **C6**: out-of-range addresses make both `read` and `write` fail with the
out-of-bounds `ValueError` (no cell is produced, so nothing is modified), and
an in-range address with a non-byte value makes `write` fail with the
invalid-value `ValueError`. -/
theorem ram_bounds_and_value_errors (r : RAM) (a v : Int) :
    ((a < 0 ∨ (r.size : Int) ≤ a) →
      r.read a = .error (.valueError ("Address " ++ toString a ++ " is out of bounds.")) ∧
      r.write a v =
        .error (.valueError ("Address " ++ toString a ++ " is out of bounds."))) ∧
    (0 ≤ a → a < (r.size : Int) → (v < 0 ∨ 255 < v) →
      r.write a v =
        .error (.valueError ("Invalid value: " ++ toString v ++ ". Must be an 8-bit integer."))) := by
  constructor
  · intro h
    constructor
    · simp only [RAM.read, if_pos h]
    · simp only [RAM.write, if_pos h]
  · intro h0 h1 hv
    have hc : ¬(a < 0 ∨ (r.size : Int) ≤ a) := by omega
    have hc2 : ¬(0 ≤ v ∧ v < 256) := by omega
    simp only [RAM.write, if_neg hc, if_pos hc2]

/-- Witness for C6: address 7 out of bounds in a 4-cell RAM; value 300
rejected at the in-bounds address 1. -/
theorem ram_bounds_and_value_errors_witness :
    (RAM.init 4).read 7 =
      .error (.valueError ("Address " ++ toString (7 : Int) ++ " is out of bounds.")) ∧
    (RAM.init 4).write 1 300 =
      .error (.valueError ("Invalid value: " ++ toString (300 : Int) ++
        ". Must be an 8-bit integer.")) :=
  ⟨((ram_bounds_and_value_errors (RAM.init 4) 7 0).1 (by decide)).1,
   (ram_bounds_and_value_errors (RAM.init 4) 1 300).2 (by decide) (by decide) (by decide)⟩

/-- **C8**: on the byte domain, NAND is NOT of AND, NOR is NOT of OR, and NOT
is an involution. -/
theorem logic_gate_identities (a b : Nat) (ha : a ≤ 255) (hb : b ≤ 255) :
    LogicGates.NAND a b = LogicGates.NOT (LogicGates.AND a b) ∧
    LogicGates.NOR a b = LogicGates.NOT (LogicGates.OR a b) ∧
    LogicGates.NOT (LogicGates.NOT a) = a := by
  refine ⟨rfl, rfl, ?_⟩
  simp only [LogicGates.NOT]
  omega

/-- Witness for C8 at the byte pair (5, 200). -/
theorem logic_gate_identities_witness :
    LogicGates.NAND 5 200 = LogicGates.NOT (LogicGates.AND 5 200) ∧
    LogicGates.NOR 5 200 = LogicGates.NOT (LogicGates.OR 5 200) ∧
    LogicGates.NOT (LogicGates.NOT 5) = 5 :=
  logic_gate_identities 5 200 (by decide) (by decide)

/-- **C10**: register operand parsing is unguarded — `LOAD R8 [00]` and
`ADD R9 R0 R0` die with an `IndexError` (a kind distinct from every
`ValueError` the spec names), while `CLEAR R25` silently parses the register
token as register 2 (only the character at position 1 is read) and zeroes
register 2. -/
theorem register_parsing_unguarded :
    CPU.execute demoState "LOAD R8 [00]" =
      (demoState, [], .error (.indexError "list assignment index out of range")) ∧
    CPU.execute demoState "ADD R9 R0 R0" =
      (demoState, [], .error (.indexError "list index out of range")) ∧
    CPU.execute demoState "CLEAR R25" =
      ({ demoState with registers := [7, 3, 0, 0, 1, 250, 6, 2] }, [], .ok none) ∧
    regAt "R25" = .ok 2 ∧
    (∀ m, PyErr.indexError "list index out of range" ≠ PyErr.valueError m) := by
  exact ⟨by decide, by decide, by decide, by decide, fun m h => PyErr.noConfusion h⟩

/-- Bit length bound: with enough fuel, a number below `2 ^ k` has at most
`k` binary digit characters. -/
theorem binDigitsAux_length_le :
    ∀ fuel n k, n ≤ fuel → n < 2 ^ k → (binDigitsAux fuel n).length ≤ k := by
  intro fuel
  induction fuel with
  | zero =>
    intro n k hn _
    interval_cases n
    simp [binDigitsAux]
  | succ f ih =>
    intro n k hn hk
    match n with
    | 0 => simp [binDigitsAux]
    | m + 1 =>
      match k with
      | 0 => omega
      | j + 1 =>
        have h1 : (m + 1) / 2 ≤ f := by omega
        have h2 : (m + 1) / 2 < 2 ^ j := by
          have : 2 ^ (j + 1) = 2 ^ j * 2 := by ring
          omega
        have := ih ((m + 1) / 2) j h1 h2
        simp only [binDigitsAux, List.length_append, List.length_cons, List.length_nil]
        omega

/-- A byte value renders as exactly 8 characters under `format(v, '08b')`. -/
theorem pyFormat08b_length_eq (v : Int) (h0 : 0 ≤ v) (h : v < 256) :
    (pyFormat08b v).length = 8 := by
  have hneg : ¬(v < 0) := by omega
  have hlen : (natToBin v.toNat).length ≤ 8 := by
    unfold natToBin
    by_cases hz : v.toNat = 0
    · simp only [hz]
      decide
    · have hz2 : (v.toNat == 0) = false := by simpa using hz
      simp only [hz2, if_false, Bool.false_eq_true]
      show (binDigits v.toNat).length ≤ 8
      have hlt : v.toNat < 2 ^ 8 := by omega
      exact binDigitsAux_length_le v.toNat v.toNat 8 (le_refl _) hlt
  simp only [pyFormat08b, if_neg hneg, String.length_append]
  have hmk : ∀ l : List Char, (String.mk l).length = l.length := fun l => rfl
  rw [hmk]
  rw [List.length_replicate]
  omega

/-- **C4** (amended): every `OUT` prints exactly one line whatever the
verbosity flag is (the state, including the flag, is arbitrary and the
printed list never depends on it), rendering the value zero-padded to width
at least 8; the rendering is exactly 8 characters whenever the value is
below 256 — always the case for register contents (bytes), and for every
binary immediate literal whose value is below 256. -/
theorem out_prints_binary_unconditionally (st : CPUState) (line tok : String)
    (i v : Nat) (w : Int)
    (hparts : lineParts line = ["OUT", tok]) :
    (pyStartsWith tok "R" = true → regAt tok = .ok i → getReg st i = .ok v → v ≤ 255 →
       CPU.execute st line =
         (st, ["OUT: REG R" ++ toString i ++ "=" ++ pyFormat08b (v : Int)], .ok (some true)) ∧
       (pyFormat08b (v : Int)).length = 8) ∧
    (pyStartsWith tok "R" = false → pyInt tok 2 = .ok w → 0 ≤ w → w < 256 →
       CPU.execute st line = (st, ["OUT: Value " ++ pyFormat08b w], .ok (some true)) ∧
       (pyFormat08b w).length = 8) := by
  constructor
  · intro hR hreg hget hv
    rw [execute_eq_dispatch, dispatch_eq_execOUT _ _ _ _ hparts]
    refine ⟨?_, pyFormat08b_length_eq (v : Int) (by omega) (by omega)⟩
    simp only [CPU.execOUT, hR, hreg, hget, reduceIte, if_true]
  · intro hR hint h0 h1
    rw [execute_eq_dispatch, dispatch_eq_execOUT _ _ _ _ hparts]
    refine ⟨?_, pyFormat08b_length_eq w h0 h1⟩
    simp only [CPU.execOUT, hR, hint, reduceIte, if_false, Bool.false_eq_true]

/-- Witness for the amended C4 statement: `OUT R5` on the demo machine prints
register 5 (value 250) as exactly 8 binary characters. -/
theorem out_prints_binary_unconditionally_witness :
    CPU.execute demoState "OUT R5" =
      (demoState, ["OUT: REG R" ++ toString 5 ++ "=" ++ pyFormat08b ((250 : Nat) : Int)],
       .ok (some true)) ∧
    (pyFormat08b ((250 : Nat) : Int)).length = 8 :=
  (out_prints_binary_unconditionally demoState "OUT R5" "R5" 5 250 0 (by decide)).1
    (by decide) (by decide) (by decide) (by decide)

/-- **C7**: `ADD Ra Rb Rd` writes `(x + y) mod 256` into the destination
register and touches nothing else: memory is unchanged and every register
other than the destination keeps its value. -/
theorem add_sets_dest_mod_256 (st : CPUState) (line r1 r2 r3 : String)
    (i1 i2 i3 x y : Nat)
    (hparts : lineParts line = ["ADD", r1, r2, r3])
    (h1 : regAt r1 = .ok i1) (hx : getReg st i1 = .ok x)
    (h2 : regAt r2 = .ok i2) (hy : getReg st i2 = .ok y)
    (h3 : regAt r3 = .ok i3) (hi3 : i3 < st.registers.length) :
    CPU.execute st line =
      ({ st with registers := st.registers.set i3 ((x + y) % 256) },
       if st.verbose then
         ["ADD: R" ++ toString i1 ++ " + R" ++ toString i2 ++ " = R" ++ toString i3 ++
          " -> " ++ pyFormat08b (((x + y) % 256 : Nat) : Int)]
       else [],
       .ok (some true)) ∧
    (x + y) % 256 < 256 ∧
    ({ st with registers := st.registers.set i3 ((x + y) % 256) }).ram = st.ram ∧
    (∀ j, j ≠ i3 → (st.registers.set i3 ((x + y) % 256)).getD j 0 = st.registers.getD j 0) ∧
    (st.registers.set i3 ((x + y) % 256)).getD i3 0 = (x + y) % 256 := by
  refine ⟨?_, by omega, rfl, ?_, ?_⟩
  · rw [execute_eq_dispatch, dispatch_eq_execADD _ _ _ _ hparts]
    simp only [CPU.execADD, h1, hx, h2, hy, h3, setReg, hi3, if_true, reduceIte]
  · intro j hj
    simp [List.getD_eq_getElem?_getD, List.getElem?_set_ne (Ne.symm hj)]
  · simp [List.getD_eq_getElem?_getD, List.getElem?_set_self', hi3]

/-- Witness for C7: `ADD R0 R5 R2` on the demo machine wraps 7 + 250 to 1 in
register 2 and leaves the rest alone. -/
theorem add_sets_dest_mod_256_witness :
    (CPU.execute demoState "ADD R0 R5 R2").1.registers = [7, 3, 1, 0, 1, 250, 6, 2] ∧
    (CPU.execute demoState "ADD R0 R5 R2").1.ram = demoState.ram := by
  have h := add_sets_dest_mod_256 demoState "ADD R0 R5 R2" "R0" "R5" "R2" 0 5 2 7 250
    (by decide) (by decide) (by decide) (by decide) (by decide) (by decide) (by decide)
  rw [h.1]
  exact ⟨by decide, rfl⟩

/-- The IF branch of a clause containing no THEN token errors without
recursing, for any recursive executor. -/
theorem execIF_noTHEN (recur recur2 : CPUState → String → ER) (st : CPUState)
    (s u : String) (h : splitOnStr "THEN" s = [u]) :
    CPU.execIF recur st s = CPU.execIF recur2 st s := by
  unfold CPU.execIF
  rw [h]

theorem dispatch_congr_noTHEN (recur recur2 : CPUState → String → ER) (st : CPUState)
    (s u : String) (h : splitOnStr "THEN" s = [u]) :
    CPU.dispatch recur st s = CPU.dispatch recur2 st s := by
  unfold CPU.dispatch
  cases hp : lineParts s with
  | nil => rfl
  | cons op rest =>
    refine if_congr Iff.rfl rfl ?_
    refine if_congr Iff.rfl rfl ?_
    refine if_congr Iff.rfl rfl ?_
    refine if_congr Iff.rfl rfl ?_
    refine if_congr Iff.rfl rfl ?_
    refine if_congr Iff.rfl rfl ?_
    refine if_congr Iff.rfl rfl ?_
    refine if_congr Iff.rfl rfl ?_
    refine if_congr Iff.rfl rfl ?_
    refine if_congr Iff.rfl rfl ?_
    refine if_congr Iff.rfl rfl ?_
    refine if_congr Iff.rfl rfl ?_
    refine if_congr Iff.rfl rfl ?_
    refine if_congr Iff.rfl rfl ?_
    exact if_congr Iff.rfl (execIF_noTHEN recur recur2 st s u h) rfl

theorem executeFuel_congr_noTHEN (n m : Nat) (st : CPUState) (s u : String)
    (h : splitOnStr "THEN" s = [u]) :
    CPU.executeFuel (n + 1) st s = CPU.executeFuel (m + 1) st s := by
  rw [executeFuel_succ, executeFuel_succ]
  exact dispatch_congr_noTHEN _ _ st s u h

theorem executeFuel999_eq_execute (st : CPUState) (s u : String)
    (h : splitOnStr "THEN" s = [u]) :
    CPU.executeFuel 999 st s = CPU.execute st s := by
  show CPU.executeFuel 999 st s = CPU.executeFuel 1000 st s
  rw [show (999 : Nat) = 998 + 1 from rfl]
  rw [show (1000 : Nat) = 999 + 1 from rfl]
  exact executeFuel_congr_noTHEN 998 999 st s u h

/-- Reduction of `execute` on a well-parsed IF line to the post-split
`ifDispatch`, for both the ELSE-less and the ELSE-bearing shape. -/
theorem c3_base (st : CPUState) (line condRaw thenRaw thenClause : String)
    (elseOpt : Option String) (rest : List String)
    (hop : lineParts line = "IF" :: rest)
    (hthen : splitOnStr "THEN" line = [condRaw, thenRaw])
    (hshape : ((∃ u, splitOnStr "ELSE" (pyStrip thenRaw) = [u]) ∧
                thenClause = pyStrip thenRaw ∧ elseOpt = none) ∨
              (∃ t e, splitOnStr "ELSE" (pyStrip thenRaw) = [t, e] ∧
                thenClause = pyStrip t ∧ elseOpt = some (pyStrip e))) :
    CPU.execute st line =
      CPU.ifDispatch (CPU.executeFuel 999) st (pyStrip condRaw) thenClause elseOpt := by
  rw [execute_eq_dispatch, dispatch_eq_execIF _ _ _ _ hop]
  unfold CPU.execIF
  rw [hthen]
  dsimp only
  rcases hshape with ⟨⟨u, hsp⟩, htC, heC⟩ | ⟨t, e, hsp, htC, heC⟩
  · rw [hsp, htC, heC]
  · rw [hsp, htC, heC]

/-- **C3**: for an IF instruction whose condition parses into exactly four
tokens with a recognised operator and resolvable operands: a true comparison
executes exactly the THEN clause (prefixed by its optional trace), a false
comparison with a nonempty ELSE clause executes exactly the ELSE clause, and
a false comparison with no (or an empty) ELSE clause executes neither clause
and leaves the state unchanged. -/
theorem if_condition_dispatch (st : CPUState)
    (line condRaw thenRaw thenClause reg1 operator value u1 u2 e0 : String)
    (elseOpt : Option String) (rest : List String) (i a : Nat) (w : Int)
    (hop : lineParts line = "IF" :: rest)
    (hthen : splitOnStr "THEN" line = [condRaw, thenRaw])
    (hshape : ((∃ u, splitOnStr "ELSE" (pyStrip thenRaw) = [u]) ∧
                thenClause = pyStrip thenRaw ∧ elseOpt = none) ∨
              (∃ t e, splitOnStr "ELSE" (pyStrip thenRaw) = [t, e] ∧
                thenClause = pyStrip t ∧ elseOpt = some (pyStrip e)))
    (hcond : pySplitWs (pyStrip condRaw) = ["IF", reg1, operator, value])
    (hmem : CPU.condOps.contains operator = true)
    (hreg : regAt reg1 = .ok i)
    (hget : getReg st i = .ok a)
    (hres : CPU.resolveOperand st value = .ok w)
    (hnt : splitOnStr "THEN" thenClause = [u1])
    (hne : elseOpt = some e0 → splitOnStr "THEN" e0 = [u2]) :
    (CPU.evalCond operator (a : Int) w = true →
       CPU.execute st line =
         ((CPU.execute st thenClause).1,
          (if st.verbose then [CPU.ifMetTrace reg1 operator w thenClause] else []) ++
            (CPU.execute st thenClause).2.1,
          CPU.swallowRet (CPU.execute st thenClause).2.2)) ∧
    (CPU.evalCond operator (a : Int) w = false → elseOpt = some e0 → e0 ≠ "" →
       CPU.execute st line =
         ((CPU.execute st e0).1,
          (if st.verbose then [CPU.ifElseTrace e0] else []) ++ (CPU.execute st e0).2.1,
          CPU.swallowRet (CPU.execute st e0).2.2)) ∧
    (CPU.evalCond operator (a : Int) w = false → (elseOpt = none ∨ elseOpt = some "") →
       CPU.execute st line =
         (st, if st.verbose then [CPU.ifSkipTrace reg1 operator w] else [],
          .ok (some true))) := by
  have hbase := c3_base st line condRaw thenRaw thenClause elseOpt rest hop hthen hshape
  refine ⟨?_, ?_, ?_⟩
  · intro hcT
    rw [hbase]
    unfold CPU.ifDispatch
    rw [hcond]
    dsimp only
    simp only [hmem, hreg, hget, hres, hcT, reduceIte, if_true]
    rw [executeFuel999_eq_execute st thenClause u1 hnt]
  · intro hcF hEo hne0
    rw [hbase]
    unfold CPU.ifDispatch
    rw [hcond]
    dsimp only
    simp only [hmem, hreg, hget, hres, hcF, hEo, reduceIte, if_true, Bool.false_eq_true,
      if_false]
    rw [if_pos hne0]
    rw [executeFuel999_eq_execute st e0 u2 (hne hEo)]
  · intro hcF hor
    rw [hbase]
    unfold CPU.ifDispatch
    rw [hcond]
    dsimp only
    rcases hor with hEo | hEo <;>
      simp only [hmem, hreg, hget, hres, hcF, hEo, reduceIte, if_true, Bool.false_eq_true,
        if_false, ne_eq, not_true_eq_false]

/-- Witness for C3: the spec's own scenario shape — a true condition runs
only the THEN clause, printing register 0. -/
theorem if_condition_dispatch_witness :
    CPU.execute demoState "IF R0 == 00000111 THEN OUT R0 ELSE OUT R1" =
      (demoState, ["OUT: REG R0=00000111"], .ok (some true)) :=
  ((if_condition_dispatch demoState "IF R0 == 00000111 THEN OUT R0 ELSE OUT R1"
      "IF R0 == 00000111 " " OUT R0 ELSE OUT R1" "OUT R0" "R0" "==" "00000111"
      "OUT R0" "OUT R1" "OUT R1" (some "OUT R1")
      ["R0", "==", "00000111", "THEN", "OUT", "R0", "ELSE", "OUT", "R1"] 0 7 7
      (by decide) (by decide)
      (Or.inr ⟨"OUT R0 ", " OUT R1", by decide, by decide, by decide⟩)
      (by decide) (by decide) (by decide) (by decide) (by decide) (by decide)
      (fun _ => by decide)).1 (by decide)).trans (by decide)

/-- Registers and memory cells are byte values. -/
def bytesOK (l : List Nat) : Prop := ∀ x ∈ l, x < 256

/-- The byte-domain invariant of a machine state. -/
def stOK (st : CPUState) : Prop := bytesOK st.registers ∧ bytesOK st.ram.memory

theorem getReg_lt (st : CPUState) (i v : Nat) (h : bytesOK st.registers)
    (hg : getReg st i = .ok v) : v < 256 := by
  unfold getReg at hg
  split at hg
  · rename_i hlt
    cases hg
    exact h _ (List.get_mem st.registers i hlt)
  · cases hg

theorem read_lt (r : RAM) (a : Int) (v : Nat) (h : bytesOK r.memory)
    (hr : r.read a = .ok v) : v < 256 := by
  unfold RAM.read at hr
  split at hr
  · cases hr
  · cases hr
    rcases hgd : r.memory[a.toNat]? with _ | c
    · simp [List.getD_eq_getElem?_getD, hgd]
    · simp only [List.getD_eq_getElem?_getD, hgd, Option.getD_some]
      exact h c (List.getElem?_mem hgd)

theorem write_bytesOK (r : RAM) (a v : Int) (r2 : RAM) (h : bytesOK r.memory)
    (hw : r.write a v = .ok r2) : bytesOK r2.memory := by
  unfold RAM.write at hw
  split at hw
  · cases hw
  · split at hw
    · cases hw
    · rename_i hne hok
      cases hw
      intro x hx
      rcases List.mem_or_eq_of_mem_set hx with hmem | hEq
      · exact h x hmem
      · have hv : 0 ≤ v ∧ v < 256 := not_not.mp hok
        subst hEq
        omega

theorem setReg_bytesOK (st : CPUState) (i v : Nat) (st2 : CPUState)
    (h : bytesOK st.registers) (hv : v < 256)
    (hs : setReg st i v = .ok st2) : bytesOK st2.registers := by
  unfold setReg at hs
  split at hs
  · cases hs
    intro x hx
    rcases List.mem_or_eq_of_mem_set hx with hmem | hEq
    · exact h x hmem
    · omega
  · cases hs

theorem setReg_ram (st : CPUState) (i v : Nat) (st2 : CPUState)
    (hs : setReg st i v = .ok st2) : st2.ram = st.ram := by
  unfold setReg at hs
  split at hs
  · cases hs
    rfl
  · cases hs

theorem gate_NOT_lt (a : Nat) : LogicGates.NOT a < 256 := by
  unfold LogicGates.NOT
  omega

theorem gate_AND_lt (a b : Nat) (ha : a < 256) : LogicGates.AND a b < 256 :=
  lt_of_le_of_lt Nat.and_le_left ha

theorem gate_OR_lt (a b : Nat) (ha : a < 256) (hb : b < 256) : LogicGates.OR a b < 256 :=
  Nat.or_lt_two_pow (n := 8) ha hb

theorem gate_XOR_lt (a b : Nat) (ha : a < 256) (hb : b < 256) : LogicGates.XOR a b < 256 :=
  Nat.xor_lt_two_pow (n := 8) ha hb

theorem gate_NAND_lt (a b : Nat) : LogicGates.NAND a b < 256 := gate_NOT_lt _

theorem gate_NOR_lt (a b : Nat) : LogicGates.NOR a b < 256 := gate_NOT_lt _

theorem execLOAD_ok (st : CPUState) (ins : String) (parts : List String) (h : stOK st) :
    stOK (CPU.execLOAD st ins parts).1 := by
  unfold CPU.execLOAD
  repeat' split
  all_goals try exact h
  all_goals
    rename_i hread x st2 hset hv
    exact ⟨setReg_bytesOK st _ _ _ h.1 (read_lt st.ram _ _ h.2 hread) hset,
           (setReg_ram st _ _ _ hset) ▸ h.2⟩

theorem execVER_ok (st : CPUState) (ins : String) (parts : List String) (h : stOK st) :
    stOK (CPU.execVER st ins parts).1 := by
  unfold CPU.execVER
  repeat' split
  all_goals exact h

theorem execADD_ok (st : CPUState) (ins : String) (parts : List String) (h : stOK st) :
    stOK (CPU.execADD st ins parts).1 := by
  unfold CPU.execADD
  repeat' split
  all_goals try exact h
  all_goals
    rename_i st2 hset hv
    exact ⟨setReg_bytesOK st _ _ _ h.1 (by omega) hset,
           (setReg_ram st _ _ _ hset) ▸ h.2⟩

theorem execSTORE_ok (st : CPUState) (ins : String) (parts : List String) (h : stOK st) :
    stOK (CPU.execSTORE st ins parts).1 := by
  unfold CPU.execSTORE
  repeat' split
  all_goals try exact h
  all_goals
    rename_i ram2 hw hv
    exact ⟨h.1, write_bytesOK st.ram _ _ ram2 h.2 hw⟩

theorem execINIT_ok (st : CPUState) (ins : String) (parts : List String) (h : stOK st) :
    stOK (CPU.execINIT st ins parts).1 := by
  unfold CPU.execINIT
  repeat' split
  all_goals try exact h
  all_goals
    rename_i ram2 hw hv
    exact ⟨h.1, write_bytesOK st.ram _ _ ram2 h.2 hw⟩

theorem execCLEAR_ok (st : CPUState) (ins : String) (parts : List String) (h : stOK st) :
    stOK (CPU.execCLEAR st ins parts).1 := by
  unfold CPU.execCLEAR
  repeat' split
  all_goals try exact h
  all_goals try
    (rename_i st2 hset
     exact ⟨setReg_bytesOK st _ _ _ h.1 (by omega) hset,
            (setReg_ram st _ _ _ hset) ▸ h.2⟩)
  all_goals
    rename_i ram2 hw hv
    exact ⟨h.1, write_bytesOK st.ram _ _ ram2 h.2 hw⟩

theorem execOUT_ok (st : CPUState) (ins : String) (parts : List String) (h : stOK st) :
    stOK (CPU.execOUT st ins parts).1 := by
  unfold CPU.execOUT
  repeat' split
  all_goals exact h

theorem execNOT_ok (st : CPUState) (ins : String) (parts : List String) (h : stOK st) :
    stOK (CPU.execNOT st ins parts).1 := by
  unfold CPU.execNOT
  repeat' split
  all_goals try exact h
  all_goals
    rename_i st2 hset hv
    exact ⟨setReg_bytesOK st _ _ _ h.1 (gate_NOT_lt _) hset,
           (setReg_ram st _ _ _ hset) ▸ h.2⟩

theorem execGate3_ok (name : String) (gate : Nat → Nat → Nat)
    (hg : ∀ x y, x < 256 → y < 256 → gate x y < 256)
    (st : CPUState) (ins : String) (parts : List String) (h : stOK st) :
    stOK (CPU.execGate3 name gate st ins parts).1 := by
  unfold CPU.execGate3
  repeat' split
  all_goals try exact h
  all_goals
    rename_i x2 v1 hget1 x3 i2 hr2 x4 v2 hget2 x5 i3 hr3 x6 st2 hset hv
    exact ⟨setReg_bytesOK st _ _ _ h.1
             (hg _ _ (getReg_lt st _ _ h.1 hget1) (getReg_lt st _ _ h.1 hget2)) hset,
           (setReg_ram st _ _ _ hset) ▸ h.2⟩

theorem ifDispatch_ok (recur : CPUState → String → ER)
    (hrec : ∀ st s, stOK st → stOK (recur st s).1)
    (st : CPUState) (cond thenC : String) (elseC : Option String) (h : stOK st) :
    stOK (CPU.ifDispatch recur st cond thenC elseC).1 := by
  unfold CPU.ifDispatch
  repeat' split
  all_goals try exact h
  all_goals exact hrec _ _ h

theorem execIF_ok (recur : CPUState → String → ER)
    (hrec : ∀ st s, stOK st → stOK (recur st s).1)
    (st : CPUState) (ins : String) (h : stOK st) :
    stOK (CPU.execIF recur st ins).1 := by
  unfold CPU.execIF
  split
  · exact h
  · dsimp only
    split
    · exact ifDispatch_ok recur hrec st _ _ _ h
    · exact ifDispatch_ok recur hrec st _ _ _ h
    · exact h
  · exact h

theorem stOK_ite (c : Prop) [Decidable c] (x y : ER) (hx : stOK x.1) (hy : stOK y.1) :
    stOK (ite c x y).1 := by
  by_cases h : c
  · rw [if_pos h]; exact hx
  · rw [if_neg h]; exact hy

theorem dispatch_ok (recur : CPUState → String → ER)
    (hrec : ∀ st s, stOK st → stOK (recur st s).1)
    (st : CPUState) (ins : String) (h : stOK st) :
    stOK (CPU.dispatch recur st ins).1 := by
  unfold CPU.dispatch
  split
  · exact h
  dsimp only
  refine stOK_ite _ _ _ (execLOAD_ok st ins _ h) ?_
  refine stOK_ite _ _ _ (execVER_ok st ins _ h) ?_
  refine stOK_ite _ _ _ (execADD_ok st ins _ h) ?_
  refine stOK_ite _ _ _ (execSTORE_ok st ins _ h) ?_
  refine stOK_ite _ _ _ (execINIT_ok st ins _ h) ?_
  refine stOK_ite _ _ _ (execCLEAR_ok st ins _ h) ?_
  refine stOK_ite _ _ _ (execOUT_ok st ins _ h) ?_
  refine stOK_ite _ _ _ h ?_
  refine stOK_ite _ _ _ (execGate3_ok _ _ (fun x y hx hy => gate_AND_lt x y hx) st ins _ h) ?_
  refine stOK_ite _ _ _ (execGate3_ok _ _ (fun x y hx hy => gate_OR_lt x y hx hy) st ins _ h) ?_
  refine stOK_ite _ _ _ (execNOT_ok st ins _ h) ?_
  refine stOK_ite _ _ _ (execGate3_ok _ _ (fun x y hx hy => gate_NAND_lt x y) st ins _ h) ?_
  refine stOK_ite _ _ _ (execGate3_ok _ _ (fun x y hx hy => gate_NOR_lt x y) st ins _ h) ?_
  refine stOK_ite _ _ _ (execGate3_ok _ _ (fun x y hx hy => gate_XOR_lt x y hx hy) st ins _ h) ?_
  refine stOK_ite _ _ _ (execIF_ok recur hrec st ins h) h

theorem executeFuel_ok (fuel : Nat) : ∀ st s, stOK st → stOK (CPU.executeFuel fuel st s).1 := by
  induction fuel with
  | zero => intro st s h; exact h
  | succ n ih =>
    intro st s h
    rw [executeFuel_succ]
    exact dispatch_ok _ ih st s h

/-- **C9**: the byte-domain invariant is preserved by `execute` on every
instruction line: if all registers and memory cells hold values in [0, 255]
beforehand, they still do in the state `execute` hands back — and that state
component is produced both when `execute` returns and when it raises, so the
invariant holds after errors as well. -/
theorem execute_preserves_byte_invariant (st : CPUState) (line : String)
    (hreg : ∀ x ∈ st.registers, x < 256) (hmem : ∀ x ∈ st.ram.memory, x < 256) :
    (∀ x ∈ (CPU.execute st line).1.registers, x < 256) ∧
    (∀ x ∈ (CPU.execute st line).1.ram.memory, x < 256) :=
  executeFuel_ok 1000 st line ⟨hreg, hmem⟩

/-- Witness for C9: the wrap-around ADD on the demo machine keeps every
register and memory cell a byte. -/
theorem execute_preserves_byte_invariant_witness :
    (∀ x ∈ (CPU.execute demoState "ADD R0 R5 R2").1.registers, x < 256) ∧
    (∀ x ∈ (CPU.execute demoState "ADD R0 R5 R2").1.ram.memory, x < 256) :=
  execute_preserves_byte_invariant demoState "ADD R0 R5 R2" (by decide) (by decide)
